import Mathlib

/-!
# net-examples: dual-stack TCP and UDP demo servers

A shallow embedding of `tcp-server.c` and `udp-server.c`.

* Every C function becomes a Lean function of the same name.
* System calls are not executed: the value each call returns is read from an
  explicit environment, and every call (with its arguments and its result) is
  appended to a trace of `Event`s, together with everything written to
  standard output and standard error.
* `assert` failures are an explicit `abort` result.
* Neither program changes the disposition of a signal, so a `write` on a
  connection the peer has reset raises `SIGPIPE` with its default action: that
  call is an explicit outcome of the environment and ends the run as `killed`.
* The endless loops are run for a given number of iterations.
* Library functions (`strtol`, `htons`, `inet_ntop`, `printf` conversions) are
  modelled after their C / POSIX description, for an LP64 little-endian Linux
  target (the datagram server includes `linux/ipv6.h`).
-/

namespace NetExamples

/-! ## Constants of the system headers (Linux values) -/

def AF_INET6 : Int := 10
def SOCK_STREAM : Int := 1
def SOCK_DGRAM : Int := 2
def SOL_SOCKET : Int := 1
def SO_REUSEADDR : Int := 2
def IPPROTO_IPV6 : Int := 41
def IPV6_V6ONLY : Int := 26
def IPV6_RECVPKTINFO : Int := 49
def IPV6_PKTINFO : Int := 50
def ERANGE : Int := 34
def EINVAL : Int := 22
def LONG_MAX : Int := 2 ^ 63 - 1
def LONG_MIN : Int := -(2 ^ 63)
def INET6_ADDRSTRLEN : Nat := 46
/-- The value of `sizeof(struct sockaddr_in6)`. -/
def sizeof_sockaddr_in6 : Nat := 28
/-- The value of `sizeof(int)`. -/
def sizeof_int : Nat := 4
/-- The terminating character of a C string. -/
def NUL : Char := Char.ofNat 0

/-! ## Data -/

/-- The type `struct in6_addr`: sixteen bytes in network order. -/
structure In6Addr where
  s6_addr : List Nat
deriving DecidableEq, Repr

/-- The wildcard address `in6addr_any` (`::`). -/
def in6addr_any : In6Addr := ⟨List.replicate 16 0⟩

/-- The fields of `struct sockaddr_in6` the programs touch. The field
`sin6_port` holds the raw 16-bit value, i.e. the port in network byte order. -/
structure SockaddrIn6 where
  sin6_family : Int
  sin6_port : Nat
  sin6_addr : In6Addr
deriving DecidableEq, Repr

/-- The initialiser `{ 0 }` of a `struct sockaddr_in6`. -/
def SockaddrIn6.zero : SockaddrIn6 := ⟨0, 0, ⟨List.replicate 16 0⟩⟩

/-- The type `struct in6_pktinfo`. -/
structure In6Pktinfo where
  ipi6_addr : In6Addr
  ipi6_ifindex : Int
deriving DecidableEq, Repr

/-- One ancillary record (`struct cmsghdr` and its data area). The field
`cmsg_data` is what `(struct in6_pktinfo *)CMSG_DATA(cmsg)` points at: the
first `sizeof(struct in6_pktinfo)` bytes of the data area read as a
`struct in6_pktinfo`, whatever the kind of the record. -/
structure Cmsghdr where
  cmsg_level : Int
  cmsg_type : Int
  cmsg_data : In6Pktinfo
deriving DecidableEq, Repr

/-- The fields of `struct msghdr` for a single `struct iovec`; the control
buffer is the sequence of records `CMSG_FIRSTHDR` / `CMSG_NXTHDR` walk. -/
structure Msghdr where
  msg_name : SockaddrIn6
  msg_namelen : Nat
  iov_base : List Nat
  iov_len : Nat
  msg_iovlen : Nat
  msg_control : List Cmsghdr
  msg_controllen : Nat
deriving DecidableEq, Repr

/-- What a run of the program does, in order. System calls carry their
arguments and the value they returned; `write_sigpipe` is a call of `write`
that does not return, because it raises `SIGPIPE` and the process is
terminated. -/
inductive Event where
  | socket (domain type protocol ret : Int)
  | setsockopt (fd level optname : Int) (optval : List Int) (optlen : Nat) (ret : Int)
  | bind (fd : Int) (addr : SockaddrIn6) (addrlen : Nat) (ret : Int)
  | listen (fd backlog ret : Int)
  | accept (fd ret : Int)
  | getsockname (fd ret : Int)
  | write (fd : Int) (buf : String) (count : Int) (ret : Int)
  | write_sigpipe (fd : Int) (buf : String) (count : Int)
  | close (fd : Int)
  | recvmsg (fd : Int) (iov_len iovlen controllen : Nat) (flags ret : Int)
  | stdout (text : String)
  | stderr (text : String)
deriving DecidableEq, Repr

/-- Result of a C function: it returns a value, dies in `assert`, or the
process is terminated by `SIGPIPE` inside it. -/
inductive Proc (α : Type) where
  | ret (val : α) (trace : List Event)
  | abort (trace : List Event)
  | killed (trace : List Event)
deriving DecidableEq, Repr

/-- Result of `main`: the process has exited with a code, was aborted by a
failed `assert`, was terminated by `SIGPIPE`, or is still in its endless loop
after the given number of iterations. -/
inductive MainResult where
  | exited (code : Int) (trace : List Event)
  | aborted (trace : List Event)
  | killed (trace : List Event)
  | running (trace : List Event)
deriving DecidableEq, Repr

/-- What a call of `write` on a connection meets: it returns a value (the
number of bytes written, or -1), or the peer has reset the connection and the
call raises `SIGPIPE`, whose default action terminates the process. -/
inductive WriteOutcome where
  | returns (ret : Int)
  | sigpipe
deriving DecidableEq, Repr

/-- The value a system call returns and the `errno` it leaves on failure. -/
structure SysRet where
  ret : Int
  errno : Int
deriving DecidableEq, Repr

/-- The C library, as far as the programs depend on it beyond the C standard:
the text of `strerror`, the text `inet_ntop` produces for an IPv6 address
(always shorter than `INET6_ADDRSTRLEN`), and whether `strtol` sets `errno` to
`EINVAL` when it converts nothing (POSIX allows both). -/
structure Libc where
  strerror : Int → String
  inet_ntop6 : In6Addr → String
  inet_ntop6_fits : ∀ a, (inet_ntop6 a).length < INET6_ADDRSTRLEN
  strtol_einval : Bool

/-! ## Library functions -/

/-- The function `isspace` in the C locale. -/
def isspace (c : Char) : Bool :=
  c.toNat = 32 || (9 ≤ c.toNat && c.toNat ≤ 13)

/-- The function `isdigit`. -/
def isdigit (c : Char) : Bool :=
  48 ≤ c.toNat && c.toNat ≤ 57

/-- Value of a decimal digit. -/
def digitVal (c : Char) : Nat := c.toNat - 48

/-- Value of a run of decimal digits. -/
def decimalValue (ds : List Char) : Nat :=
  ds.foldl (fun acc c => 10 * acc + digitVal c) 0

/-- What `strtol(str, &end_str, 10)` leaves behind: the returned value, the
rest of the string `end_str` points at, and `errno` (which the caller has
cleared before the call). -/
structure StrtolResult where
  value : Int
  end_str : List Char
  errno : Int
deriving DecidableEq, Repr

/-- The function `strtol` with base 10 (ISO C 7.22.1.4): skip white space,
take an optional sign, convert the longest run of digits; with no digits the
result is 0 and `end_str` is `str`; a value outside `long` is clamped and
`errno` becomes `ERANGE`. -/
def strtol (einval : Bool) (str : List Char) : StrtolResult :=
  let s := str.dropWhile isspace
  let neg := s.head? = some '-'
  let s1 := if s.head? = some '-' ∨ s.head? = some '+' then s.tail else s
  let digits := s1.takeWhile isdigit
  if digits = [] then ⟨0, str, if einval then EINVAL else 0⟩
  else
    let v : Int := if neg then -(decimalValue digits : Int) else (decimalValue digits : Int)
    if v > LONG_MAX then ⟨LONG_MAX, s1.dropWhile isdigit, ERANGE⟩
    else if v < LONG_MIN then ⟨LONG_MIN, s1.dropWhile isdigit, ERANGE⟩
    else ⟨v, s1.dropWhile isdigit, 0⟩

/-- Conversion of a `long long` to `int`. -/
def to_int (v : Int) : Int := (v + 2 ^ 31) % 2 ^ 32 - 2 ^ 31

/-- The function `htons` on a little-endian host, applied to an `int`
(converted to `uint16_t` first). -/
def htons (x : Int) : Nat :=
  ((x % 65536).toNat % 256) * 256 + (x % 65536).toNat / 256

/-- The function `ntohs` on a little-endian host. -/
def ntohs (x : Nat) : Nat :=
  ((x % 65536) % 256) * 256 + (x % 65536) / 256

/-- The function `inet_ntop(af, src, dst, size)`: the text written to `dst`,
or `none` for the `NULL` result (unsupported family, or `size` too small for
the text and its terminator). -/
def inet_ntop (libc : Libc) (af : Int) (src : In6Addr) (size : Nat) : Option String :=
  if af ≠ AF_INET6 then none
  else if (libc.inet_ntop6 src).length + 1 ≤ size then some (libc.inet_ntop6 src)
  else none

/-- The `printf` conversion `%d`. -/
def fmt_d (n : Int) : String :=
  if n < 0 then "-" ++ String.mk (Nat.toDigits 10 n.natAbs)
  else String.mk (Nat.toDigits 10 n.toNat)

/-- The `printf` conversion `%5d`: right-aligned in a field of at least 5. -/
def fmt_5d (n : Int) : String :=
  String.mk (List.replicate (5 - (fmt_d n).length) ' ') ++ fmt_d n

/-- Output of `printf("peer %s (%5d)  ->  local %s (%5d)\n", ...)`. -/
def printf_peer_local (peer : String) (peer_port : Int) (loc : String) (loc_port : Int) :
    String :=
  "peer " ++ peer ++ " (" ++ fmt_5d peer_port ++ ")  ->  local " ++ loc ++ " ("
    ++ fmt_5d loc_port ++ ")\n"

/-! ## Code shared by both programs -/

/-- The function `parse_port` (identical in both files): the returned `int`
and what it printed. -/
def parse_port (libc : Libc) (str : List Char) : Int × List Event :=
  let r := strtol libc.strtol_einval str
  if r.errno ≠ 0 then
    (-1, [Event.stderr "Could not extract port number from string!\n"])
  else if r.end_str.headD NUL ≠ NUL then
    (-1, [Event.stderr "Additional characters after port!\n"])
  else if r.value < 0 ∨ r.value > 2 ^ 16 - 1 then
    (-1, [Event.stderr "Number is not a valid port. Out of range!\n"])
  else
    (to_int r.value, [])

/-! ## The stream server (`tcp-server.c`) -/

namespace Tcp

/-- What the five system calls of `init_server` return, should they be
reached. -/
structure InitEnv where
  socket : SysRet
  setsockopt_reuseaddr : SysRet
  setsockopt_v6only : SysRet
  bind : SysRet
  listen : SysRet
deriving DecidableEq, Repr

/-- The function `init_server` of `tcp-server.c`: the returned `int` and the
trace of what it did. -/
def init_server (libc : Libc) (port : Int) (env : InitEnv) : Int × List Event :=
  let listening_fd := env.socket.ret
  let t1 := [Event.socket AF_INET6 SOCK_STREAM 0 listening_fd]
  if listening_fd < 0 then
    (-1, t1 ++ [Event.stderr ("Error opening socket: " ++ libc.strerror env.socket.errno ++ "\n")])
  else
    let t2 := t1 ++ [Event.setsockopt listening_fd SOL_SOCKET SO_REUSEADDR [1] sizeof_int
      env.setsockopt_reuseaddr.ret]
    if env.setsockopt_reuseaddr.ret < 0 then
      (-1, t2 ++ [Event.stderr
        ("Error opening socket: " ++ libc.strerror env.setsockopt_reuseaddr.errno ++ "\n")])
    else
      let t3 := t2 ++ [Event.setsockopt listening_fd IPPROTO_IPV6 IPV6_V6ONLY [0] sizeof_int
        env.setsockopt_v6only.ret]
      if env.setsockopt_v6only.ret < 0 then
        (-1, t3 ++ [Event.stderr
          ("Error in setsockopt(): " ++ libc.strerror env.setsockopt_v6only.errno ++ "\n")])
      else
        let addr : SockaddrIn6 := ⟨AF_INET6, htons port, in6addr_any⟩
        let t4 := t3 ++ [Event.bind listening_fd addr sizeof_sockaddr_in6 env.bind.ret]
        if env.bind.ret < 0 then
          (-1, t4 ++ [Event.stderr
            ("Error binding socket: " ++ libc.strerror env.bind.errno ++ "\n")])
        else
          let t5 := t4 ++ [Event.listen listening_fd 2 env.listen.ret]
          if env.listen.ret < 0 then
            (-1, t5 ++ [Event.stderr
              ("Error listen on socket: " ++ libc.strerror env.listen.errno ++ "\n")])
          else
            (listening_fd, t5)

/-- What the system calls of one pass through the loop of `mainloop` return,
should they be reached: `accept` (its result and the peer address it stores),
`getsockname` (its result and the local address it stores) and `write`. -/
structure ConnEnv where
  accept_ret : Int
  peer_addr : SockaddrIn6
  getsockname_ret : Int
  local_addr : SockaddrIn6
  write : WriteOutcome
deriving DecidableEq, Repr

/-- The system call `accept` on the `AF_INET6` listening socket: the result,
and the address buffer and its value-result length after the call. A
successful call stores a `struct sockaddr_in6` and its size; a failed call
leaves both untouched. -/
def sys_accept (e : ConnEnv) (addr : SockaddrIn6) (addrlen : Nat) : Int × SockaddrIn6 × Nat :=
  if e.accept_ret < 0 then (e.accept_ret, addr, addrlen)
  else (e.accept_ret, e.peer_addr, sizeof_sockaddr_in6)

/-- The system call `getsockname` on an `AF_INET6` socket, like `sys_accept`;
it succeeds with 0. -/
def sys_getsockname (e : ConnEnv) (addr : SockaddrIn6) (addrlen : Nat) :
    Int × SockaddrIn6 × Nat :=
  if e.getsockname_ret = 0 then (0, e.local_addr, sizeof_sockaddr_in6)
  else (e.getsockname_ret, addr, addrlen)

/-- The function `accept_new_client`. -/
def accept_new_client (libc : Libc) (listening_fd : Int) (e : ConnEnv) : Proc Int :=
  let a := sys_accept e SockaddrIn6.zero sizeof_sockaddr_in6
  let client_fd := a.1
  let peer_addr := a.2.1
  let peer_addr_size := a.2.2
  let t1 := [Event.accept listening_fd client_fd]
  if sizeof_sockaddr_in6 ≠ peer_addr_size then Proc.abort t1
  else if client_fd < 0 then
    Proc.ret (-1) (t1 ++ [Event.stderr "Cannot accept new connection\n"])
  else
    let g := sys_getsockname e SockaddrIn6.zero sizeof_sockaddr_in6
    let ret := g.1
    let local_addr := g.2.1
    let local_addr_size := g.2.2
    let t2 := t1 ++ [Event.getsockname client_fd ret]
    if sizeof_sockaddr_in6 ≠ local_addr_size then Proc.abort t2
    else if ret ≠ 0 then
      Proc.ret (-1) (t2 ++ [Event.stderr "Cannot call getsockname!\n"])
    else
      match inet_ntop libc AF_INET6 peer_addr.sin6_addr 100 with
      | none => Proc.abort t2
      | some peer_addr_str =>
        match inet_ntop libc AF_INET6 local_addr.sin6_addr 100 with
        | none => Proc.abort t2
        | some local_addr_str =>
          Proc.ret client_fd (t2 ++ [Event.stdout (printf_peer_local peer_addr_str
            (ntohs peer_addr.sin6_port) local_addr_str (ntohs local_addr.sin6_port))])

/-- The array `buf` of `mainloop`. -/
def buf : String := "Hello, world.\n"

/-- The value `strlen(buf)`. -/
def buf_len : Int := buf.length

/-- One pass through the body of the `while (true)` loop of `mainloop`. -/
def mainloop_body (libc : Libc) (listening_fd : Int) (e : ConnEnv) : Proc Unit :=
  match accept_new_client libc listening_fd e with
  | Proc.abort t => Proc.abort t
  | Proc.killed t => Proc.killed t
  | Proc.ret client_fd t =>
    if client_fd < 0 then Proc.ret () t
    else
      match e.write with
      | WriteOutcome.sigpipe => Proc.killed (t ++ [Event.write_sigpipe client_fd buf buf_len])
      | WriteOutcome.returns ret =>
        let t1 := t ++ [Event.write client_fd buf buf_len ret]
        let t2 := if ret ≠ buf_len then
            t1 ++ [Event.stderr "Failure or not written all bytes to client!\n"]
          else t1
        Proc.ret () (t2 ++ [Event.close client_fd])

/-- The function `mainloop`, which never returns, run for `n` passes through
its loop; pass `i` is served by `env i`. `Proc.ret` means the `n` passes are
done and control is back at the head of the loop; once the process is aborted
or killed no further pass is made. -/
def mainloop (libc : Libc) (listening_fd : Int) (env : Nat → ConnEnv) : Nat → Proc Unit
  | 0 => Proc.ret () []
  | n + 1 =>
    match mainloop libc listening_fd env n with
    | Proc.abort t => Proc.abort t
    | Proc.killed t => Proc.killed t
    | Proc.ret _ t =>
      match mainloop_body libc listening_fd (env n) with
      | Proc.abort t1 => Proc.abort (t ++ t1)
      | Proc.killed t1 => Proc.killed (t ++ t1)
      | Proc.ret _ t1 => Proc.ret () (t ++ t1)

/-- The environment of a whole run. -/
structure Env where
  init : InitEnv
  conns : Nat → ConnEnv

/-- The end of `main`, from the call `init_server(port)` on. -/
def main_serve (libc : Libc) (port : Int) (env : Env) (n : Nat) : MainResult :=
  let r := init_server libc port env.init
  let listening_fd := r.1
  if listening_fd < 0 then MainResult.exited 1 r.2
  else
    match mainloop libc listening_fd env.conns n with
    | Proc.abort t => MainResult.aborted (r.2 ++ t)
    | Proc.killed t => MainResult.killed (r.2 ++ t)
    | Proc.ret _ t => MainResult.running (r.2 ++ t)

/-- The function `main` of `tcp-server.c`; `argv` holds the `argc` argument
strings and `n` is the number of passes the loop is run for. -/
def main (libc : Libc) (argv : List (List Char)) (env : Env) (n : Nat) : MainResult :=
  if argv.length ≠ 2 then
    MainResult.exited 1 [Event.stderr ("Usage: " ++ String.mk (argv.headD []) ++ " <port>\n")]
  else
    let p := parse_port libc (argv.getD 1 [])
    let port := p.1
    if port = -1 then MainResult.exited 1 p.2
    else if port = 0 then
      MainResult.exited 1 (p.2 ++ [Event.stderr "Magic port number 0 is not allowed!\n"])
    else
      match main_serve libc port env n with
      | MainResult.exited c t => MainResult.exited c (p.2 ++ t)
      | MainResult.aborted t => MainResult.aborted (p.2 ++ t)
      | MainResult.killed t => MainResult.killed (p.2 ++ t)
      | MainResult.running t => MainResult.running (p.2 ++ t)

end Tcp

/-! ## The datagram server (`udp-server.c`) -/

namespace Udp

/-- What the four system calls of `init_server` return, should they be
reached. -/
structure InitEnv where
  socket : SysRet
  setsockopt_recvpktinfo : SysRet
  setsockopt_v6only : SysRet
  bind : SysRet
deriving DecidableEq, Repr

/-- The function `init_server` of `udp-server.c`: the returned `int` and the
trace of what it did. -/
def init_server (libc : Libc) (port : Int) (env : InitEnv) : Int × List Event :=
  let listening_fd := env.socket.ret
  let t1 := [Event.socket AF_INET6 SOCK_DGRAM 0 listening_fd]
  if listening_fd < 0 then
    (-1, t1 ++ [Event.stderr ("Error opening socket: " ++ libc.strerror env.socket.errno ++ "\n")])
  else
    let t2 := t1 ++ [Event.setsockopt listening_fd IPPROTO_IPV6 IPV6_RECVPKTINFO [1] sizeof_int
      env.setsockopt_recvpktinfo.ret]
    if env.setsockopt_recvpktinfo.ret < 0 then
      (-1, t2 ++ [Event.stderr
        ("Error opening socket: " ++ libc.strerror env.setsockopt_recvpktinfo.errno ++ "\n")])
    else
      let t3 := t2 ++ [Event.setsockopt listening_fd IPPROTO_IPV6 IPV6_V6ONLY [0] sizeof_int
        env.setsockopt_v6only.ret]
      if env.setsockopt_v6only.ret < 0 then
        (-1, t3 ++ [Event.stderr
          ("Error in setsockopt(): " ++ libc.strerror env.setsockopt_v6only.errno ++ "\n")])
      else
        let addr : SockaddrIn6 := ⟨AF_INET6, htons port, in6addr_any⟩
        let t4 := t3 ++ [Event.bind listening_fd addr sizeof_sockaddr_in6 env.bind.ret]
        if env.bind.ret < 0 then
          (-1, t4 ++ [Event.stderr
            ("Error binding socket: " ++ libc.strerror env.bind.errno ++ "\n")])
        else
          (listening_fd, t4)

/-- The macro `CMSG_FIRSTHDR`: the records of the control buffer, first one
at the head; the empty list is the `NULL` pointer. -/
def CMSG_FIRSTHDR (msg : Msghdr) : List Cmsghdr := msg.msg_control

/-- The `for` loop of `find_header`, started at the record `cmsg` points at
(`CMSG_NXTHDR` is the tail of the list). -/
def find_header_loop (cmsgs : List Cmsghdr) (pktinfo : In6Pktinfo) : Int × In6Pktinfo :=
  match cmsgs with
  | [] => (-1, pktinfo)
  | cmsg :: next =>
    if cmsg.cmsg_level ≠ IPPROTO_IPV6 ∨ cmsg.cmsg_type ≠ IPV6_PKTINFO then
      find_header_loop next pktinfo
    else
      (0, cmsg.cmsg_data)

/-- The function `find_header`: the returned `int` and the content of
`*pktinfo` after the call. -/
def find_header (msg : Msghdr) (pktinfo : In6Pktinfo) : Int × In6Pktinfo :=
  find_header_loop (CMSG_FIRSTHDR msg) pktinfo

/-- What one call of `recvmsg` meets: an error, or a datagram with its
payload, its sender and the ancillary records the kernel stores in the
control buffer for it. -/
inductive RecvOutcome where
  | error (errno : Int)
  | datagram (payload : List Nat) (src : SockaddrIn6) (control : List Cmsghdr)
deriving DecidableEq, Repr

/-- The environment of one call of `handle_one_packet`: what `recvmsg` meets,
and the indeterminate initial content of the local variable `pktinfo`. -/
structure PacketEnv where
  recv : RecvOutcome
  pktinfo_uninit : In6Pktinfo
deriving DecidableEq, Repr

/-- The system call `recvmsg` with flags 0 on a datagram socket: the payload
is cut to the length of the buffer offered and the number of bytes stored is
returned; on error the result is -1 and `msg` is left as it was. -/
def sys_recvmsg (o : RecvOutcome) (msg : Msghdr) : Int × Msghdr :=
  match o with
  | RecvOutcome.error _ => (-1, msg)
  | RecvOutcome.datagram payload src control =>
    ((min payload.length msg.iov_len : Nat),
      { msg with msg_name := src, msg_namelen := sizeof_sockaddr_in6,
                 iov_base := payload.take msg.iov_len, msg_control := control })

/-- The `errno` a failed `recvmsg` leaves. -/
def RecvOutcome.errno : RecvOutcome → Int
  | RecvOutcome.error e => e
  | RecvOutcome.datagram _ _ _ => 0

/-- The function `handle_one_packet`. -/
def handle_one_packet (libc : Libc) (listening_fd : Int) (port : Int) (e : PacketEnv) :
    Proc Unit :=
  let peer_addr : SockaddrIn6 := { SockaddrIn6.zero with sin6_family := AF_INET6 }
  let msg : Msghdr := ⟨peer_addr, sizeof_sockaddr_in6, List.replicate 100 0, 100, 1, [], 256⟩
  let r := sys_recvmsg e.recv msg
  let ret := r.1
  let msg := r.2
  let peer_addr := msg.msg_name
  let t1 := [Event.recvmsg listening_fd 100 1 256 0 ret]
  if ret < 0 then
    Proc.ret () (t1 ++ [Event.stderr ("recmsg() failed: " ++ libc.strerror e.recv.errno ++ "\n")])
  else
    let f := find_header msg e.pktinfo_uninit
    let pktinfo := f.2
    if f.1 < 0 then
      Proc.ret () (t1 ++ [Event.stderr "dsfs\n"])
    else
      match inet_ntop libc AF_INET6 peer_addr.sin6_addr 100 with
      | none => Proc.abort t1
      | some peer_addr_str =>
        match inet_ntop libc AF_INET6 pktinfo.ipi6_addr 100 with
        | none => Proc.abort t1
        | some local_addr_str =>
          Proc.ret () (t1 ++
            [Event.stdout (printf_peer_local peer_addr_str (ntohs peer_addr.sin6_port)
               local_addr_str port),
             Event.stdout ("Server " ++ fmt_d ret ++ " received bytes of data from the client.\n")])

/-- The loop `while (true) { handle_one_packet(listening_fd, port); }` of
`main`, run for `n` passes; pass `i` is served by `env i`. -/
def packet_loop (libc : Libc) (listening_fd : Int) (port : Int) (env : Nat → PacketEnv) :
    Nat → Proc Unit
  | 0 => Proc.ret () []
  | n + 1 =>
    match packet_loop libc listening_fd port env n with
    | Proc.abort t => Proc.abort t
    | Proc.killed t => Proc.killed t
    | Proc.ret _ t =>
      match handle_one_packet libc listening_fd port (env n) with
      | Proc.abort t1 => Proc.abort (t ++ t1)
      | Proc.killed t1 => Proc.killed (t ++ t1)
      | Proc.ret _ t1 => Proc.ret () (t ++ t1)

/-- The environment of a whole run. -/
structure Env where
  init : InitEnv
  packets : Nat → PacketEnv

/-- The end of `main`, from the call `init_server(port)` on. -/
def main_serve (libc : Libc) (port : Int) (env : Env) (n : Nat) : MainResult :=
  let r := init_server libc port env.init
  let listening_fd := r.1
  if listening_fd < 0 then MainResult.exited 1 r.2
  else
    match packet_loop libc listening_fd port env.packets n with
    | Proc.abort t => MainResult.aborted (r.2 ++ t)
    | Proc.killed t => MainResult.killed (r.2 ++ t)
    | Proc.ret _ t => MainResult.running (r.2 ++ t)

/-- The function `main` of `udp-server.c`; `argv` holds the `argc` argument
strings and `n` is the number of passes the loop is run for. -/
def main (libc : Libc) (argv : List (List Char)) (env : Env) (n : Nat) : MainResult :=
  if argv.length ≠ 2 then
    MainResult.exited 1 [Event.stderr ("Usage: " ++ String.mk (argv.headD []) ++ " <port>\n")]
  else
    let p := parse_port libc (argv.getD 1 [])
    let port := p.1
    if port = -1 then MainResult.exited 1 p.2
    else if port = 0 then
      MainResult.exited 1 (p.2 ++ [Event.stderr "Magic port number 0 is not allowed!\n"])
    else
      match main_serve libc port env n with
      | MainResult.exited c t => MainResult.exited c (p.2 ++ t)
      | MainResult.aborted t => MainResult.aborted (p.2 ++ t)
      | MainResult.killed t => MainResult.killed (p.2 ++ t)
      | MainResult.running t => MainResult.running (p.2 ++ t)

end Udp

/-! ## Observations on traces, and sample data -/

/-- The trace of a call, whether it returned or died. -/
def Proc.trace {α : Type} : Proc α → List Event
  | Proc.ret _ t => t
  | Proc.abort t => t
  | Proc.killed t => t

/-- The texts written to standard output, in order. -/
def stdout_of : List Event → List String
  | [] => []
  | Event.stdout s :: t => s :: stdout_of t
  | _ :: t => stdout_of t

/-- The texts written to standard error, in order. -/
def stderr_of : List Event → List String
  | [] => []
  | Event.stderr s :: t => s :: stderr_of t
  | _ :: t => stderr_of t

/-- The system calls of a trace: everything but the two output streams. -/
def syscalls_of : List Event → List Event
  | [] => []
  | Event.stdout _ :: t => syscalls_of t
  | Event.stderr _ :: t => syscalls_of t
  | e :: t => e :: syscalls_of t

/-- Whether an event is a call of `accept` or `recvmsg`. -/
def Event.isWait : Event → Bool
  | Event.accept _ _ => true
  | Event.recvmsg _ _ _ _ _ _ => true
  | _ => false

/-- Whether an event is a call of `socket`. -/
def Event.isSocket : Event → Bool
  | Event.socket _ _ _ _ => true
  | _ => false

/-- Whether an ancillary record is the IPv6 destination record. -/
def Cmsghdr.isPktinfo (c : Cmsghdr) : Bool :=
  c.cmsg_level = IPPROTO_IPV6 && c.cmsg_type = IPV6_PKTINFO

/-- A sample address text: `::` for the wildcard address, `::1` otherwise. -/
def sample_ntop6 (a : In6Addr) : String :=
  if a = in6addr_any then "::" else "::1"

/-- A sample error text. -/
def sample_strerror (e : Int) : String :=
  if e = 13 then "Permission denied"
  else if e = 98 then "Address already in use"
  else "Unknown error"

/-- A sample C library. -/
def Libc.sample : Libc :=
  ⟨sample_strerror, sample_ntop6, by intro a; unfold sample_ntop6; split <;> decide, false⟩

/-- The loopback address `::1`. -/
def in6addr_loopback : In6Addr := ⟨[0, 0, 0, 0, 0, 0, 0, 0, 0, 0, 0, 0, 0, 0, 0, 1]⟩

/-! ## Definitions used to state the properties -/

/-- Position `j` of the trace is a successful call
`setsockopt(fd, IPPROTO_IPV6, IPV6_V6ONLY, {0}, sizeof(int))`. -/
def v6only_cleared_at (t : List Event) (fd : Int) (j : Nat) : Prop :=
  ∃ r : Int, 0 ≤ r ∧ t[j]? = some (Event.setsockopt fd IPPROTO_IPV6 IPV6_V6ONLY [0] sizeof_int r)

/-- Every `bind` of the trace comes after a successful clearing of
`IPV6_V6ONLY` on the same descriptor, and its address is the wildcard address
`in6addr_any` of family `AF_INET6` with the port field `htons(port)`. -/
def bind_guarded (t : List Event) (port : Int) : Prop :=
  ∀ (i : Nat) (fd : Int) (addr : SockaddrIn6) (len : Nat) (r : Int),
    t[i]? = some (Event.bind fd addr len r) →
      (∃ j, j < i ∧ v6only_cleared_at t fd j) ∧ addr.sin6_family = AF_INET6
        ∧ addr.sin6_addr = in6addr_any ∧ addr.sin6_port = htons port

/-- A returned descriptor had `IPV6_V6ONLY` cleared and was bound afterwards,
both with success. -/
def returned_fd_dual_stack (res : Int × List Event) : Prop :=
  0 ≤ res.1 → ∃ (i j : Nat) (addr : SockaddrIn6) (len : Nat) (r : Int),
    j < i ∧ v6only_cleared_at res.2 res.1 j
      ∧ res.2[i]? = some (Event.bind res.1 addr len r) ∧ 0 ≤ r

/-- The five system calls of the stream `init_server` in source order, as
they read when all of them are made. -/
def Tcp.init_steps (port : Int) (env : Tcp.InitEnv) : List Event :=
  [Event.socket AF_INET6 SOCK_STREAM 0 env.socket.ret,
   Event.setsockopt env.socket.ret SOL_SOCKET SO_REUSEADDR [1] sizeof_int
     env.setsockopt_reuseaddr.ret,
   Event.setsockopt env.socket.ret IPPROTO_IPV6 IPV6_V6ONLY [0] sizeof_int
     env.setsockopt_v6only.ret,
   Event.bind env.socket.ret ⟨AF_INET6, htons port, in6addr_any⟩ sizeof_sockaddr_in6 env.bind.ret,
   Event.listen env.socket.ret 2 env.listen.ret]

/-- The results of those five calls. -/
def Tcp.init_rets (env : Tcp.InitEnv) : List Int :=
  [env.socket.ret, env.setsockopt_reuseaddr.ret, env.setsockopt_v6only.ret, env.bind.ret,
   env.listen.ret]

/-- The four system calls of the datagram `init_server` in source order. -/
def Udp.init_steps (port : Int) (env : Udp.InitEnv) : List Event :=
  [Event.socket AF_INET6 SOCK_DGRAM 0 env.socket.ret,
   Event.setsockopt env.socket.ret IPPROTO_IPV6 IPV6_RECVPKTINFO [1] sizeof_int
     env.setsockopt_recvpktinfo.ret,
   Event.setsockopt env.socket.ret IPPROTO_IPV6 IPV6_V6ONLY [0] sizeof_int
     env.setsockopt_v6only.ret,
   Event.bind env.socket.ret ⟨AF_INET6, htons port, in6addr_any⟩ sizeof_sockaddr_in6 env.bind.ret]

/-- The results of those four calls. -/
def Udp.init_rets (env : Udp.InitEnv) : List Int :=
  [env.socket.ret, env.setsockopt_recvpktinfo.ret, env.setsockopt_v6only.ret, env.bind.ret]

/-- A stream environment in which `bind` fails with `EADDRINUSE`. -/
def Tcp.env_bind_fails : Tcp.Env :=
  ⟨⟨⟨3, 0⟩, ⟨0, 0⟩, ⟨0, 0⟩, ⟨-1, 98⟩, ⟨0, 0⟩⟩,
   fun _ => ⟨4, SockaddrIn6.zero, 0, SockaddrIn6.zero, WriteOutcome.returns 14⟩⟩

/-- A datagram environment in which all of `init_server` succeeds. -/
def Udp.env_ok : Udp.Env :=
  ⟨⟨⟨3, 0⟩, ⟨0, 0⟩, ⟨0, 0⟩, ⟨0, 0⟩⟩, fun _ => ⟨Udp.RecvOutcome.error 4, ⟨in6addr_any, 0⟩⟩⟩

/-- The line `accept_new_client` prints for a connection. -/
def Tcp.peer_line (libc : Libc) (e : Tcp.ConnEnv) : String :=
  printf_peer_local (libc.inet_ntop6 e.peer_addr.sin6_addr) (ntohs e.peer_addr.sin6_port)
    (libc.inet_ntop6 e.local_addr.sin6_addr) (ntohs e.local_addr.sin6_port)

/-- A connection from `::1` port 5000 to local port 80 on descriptor 4, with
a short write of 5 bytes. -/
def Tcp.conn_short_write : Tcp.ConnEnv :=
  ⟨4, ⟨10, htons 5000, in6addr_loopback⟩, 0, ⟨10, htons 80, in6addr_loopback⟩,
    WriteOutcome.returns 5⟩

/-- The address line `handle_one_packet` prints for a datagram from `src`
whose destination record is `c`. -/
def Udp.peer_line (libc : Libc) (src : SockaddrIn6) (c : Cmsghdr) (port : Int) : String :=
  printf_peer_local (libc.inet_ntop6 src.sin6_addr) (ntohs src.sin6_port)
    (libc.inet_ntop6 c.cmsg_data.ipi6_addr) port

/-- A stream environment in which initialisation succeeds on descriptor 3 and
every connection has a short write. -/
def Tcp.env_ok : Tcp.Env :=
  ⟨⟨⟨3, 0⟩, ⟨0, 0⟩, ⟨0, 0⟩, ⟨0, 0⟩, ⟨0, 0⟩⟩, fun _ => Tcp.conn_short_write⟩

/-- A connection accepted on descriptor 4 whose `getsockname` fails. -/
def Tcp.conn_getsockname_fails : Tcp.ConnEnv :=
  ⟨4, ⟨10, htons 5000, in6addr_loopback⟩, -1, SockaddrIn6.zero, WriteOutcome.returns 14⟩

/-- A connection accepted on descriptor 5 that is served in full. -/
def Tcp.conn_served : Tcp.ConnEnv :=
  ⟨5, ⟨10, htons 5001, in6addr_loopback⟩, 0, ⟨10, htons 80, in6addr_loopback⟩,
    WriteOutcome.returns 14⟩

/-- A datagram of 150 bytes from `::1` port 5000 with a destination record
for `::1`, interface 1. -/
def Udp.packet_150 : Udp.PacketEnv :=
  ⟨Udp.RecvOutcome.datagram (List.replicate 150 0) ⟨10, htons 5000, in6addr_loopback⟩
    [⟨41, 50, ⟨in6addr_loopback, 1⟩⟩], ⟨in6addr_any, 0⟩⟩

/-- The line as the specification words it: `peer A (P) -> local B (Q)`, the
ports in decimal, one blank on each side of the arrow. -/
def spec_peer_line (a : String) (p : Int) (b : String) (q : Int) : String :=
  "peer " ++ a ++ " (" ++ fmt_d p ++ ") -> local " ++ b ++ " (" ++ fmt_d q ++ ")\n"

/-- The specification's "base-10 integer with no trailing characters": an
optional sign, then one or more decimal digits, and nothing else. -/
def isBase10Integer (s : List Char) : Bool :=
  match s with
  | [] => false
  | c :: r =>
    if c = '-' ∨ c = '+' then !r.isEmpty && r.all isdigit
    else (c :: r).all isdigit

/-- The value of such a text. -/
def base10Value (s : List Char) : Int :=
  match s with
  | [] => 0
  | c :: r =>
    if c = '-' then -(decimalValue r : Int)
    else if c = '+' then (decimalValue r : Int)
    else (decimalValue (c :: r) : Int)

/-- The port a text denotes according to the specification: the value of a
base-10 integer in the range 1..65535, and nothing for any other text. -/
def specPort (s : List Char) : Option Int :=
  if isBase10Integer s = true ∧ 1 ≤ base10Value s ∧ base10Value s ≤ 65535 then
    some (base10Value s)
  else none

/-! ## The ancillary scan -/

theorem find_header_loop_find (cmsgs : List Cmsghdr) (init : In6Pktinfo) :
    Udp.find_header_loop cmsgs init =
      match cmsgs.find? Cmsghdr.isPktinfo with
      | some c => (0, c.cmsg_data)
      | none => (-1, init) := by
  induction cmsgs with
  | nil => rfl
  | cons c rest ih =>
    by_cases h : c.cmsg_level ≠ IPPROTO_IPV6 ∨ c.cmsg_type ≠ IPV6_PKTINFO
    · have hp : Cmsghdr.isPktinfo c = false := by
        simp only [Cmsghdr.isPktinfo, Bool.and_eq_false_imp, decide_eq_true_eq, decide_eq_false_iff_not]
        rcases h with h | h
        · intro h1; exact absurd h1 h
        · intro _; exact h
      rw [Udp.find_header_loop, if_pos h, ih, List.find?_cons_of_neg _ (by simp [hp])]
    · have hp : Cmsghdr.isPktinfo c = true := by
        simp only [Cmsghdr.isPktinfo, Bool.and_eq_true, decide_eq_true_eq]
        constructor
        · by_contra h1; exact h (Or.inl h1)
        · by_contra h1; exact h (Or.inr h1)
      rw [Udp.find_header_loop, if_neg h, List.find?_cons_of_pos _ hp]

theorem find_first_of_split (pre post : List Cmsghdr) (c : Cmsghdr)
    (hpre : ∀ d ∈ pre, Cmsghdr.isPktinfo d = false) (hc : Cmsghdr.isPktinfo c = true) :
    (pre ++ c :: post).find? Cmsghdr.isPktinfo = some c := by
  induction pre with
  | nil => simp [hc]
  | cons d pre ih =>
    have hd : Cmsghdr.isPktinfo d = false := hpre d (List.mem_cons_self _ _)
    have ih1 := ih (fun x hx => hpre x (List.mem_cons_of_mem _ hx))
    simp [List.find?_cons, hd, ih1]

theorem inet_ntop_100 (libc : Libc) (a : In6Addr) :
    inet_ntop libc AF_INET6 a 100 = some (libc.inet_ntop6 a) := by
  have h := libc.inet_ntop6_fits a
  unfold INET6_ADDRSTRLEN at h
  unfold inet_ntop
  rw [if_neg (by simp), if_pos (by omega)]

/-- C2: `find_header` returns 0 exactly when the control records contain one
with level `IPPROTO_IPV6` and type `IPV6_PKTINFO`; it then stores the data of
the first such record, whatever surrounds it; with no such record it returns
-1, leaves `*pktinfo` alone, and `handle_one_packet` only calls `recvmsg` and
writes a diagnostic to standard error (nothing to standard output). -/
theorem C2_find_header_first_pktinfo (libc : Libc) (msg : Msghdr) (init : In6Pktinfo)
    (fd port : Int) (payload : List Nat) (src : SockaddrIn6) :
    ((Udp.find_header msg init).1 = 0 ↔
        ∃ c ∈ msg.msg_control, c.cmsg_level = IPPROTO_IPV6 ∧ c.cmsg_type = IPV6_PKTINFO)
    ∧ (∀ pre c post, msg.msg_control = pre ++ c :: post →
        (∀ d ∈ pre, ¬ (d.cmsg_level = IPPROTO_IPV6 ∧ d.cmsg_type = IPV6_PKTINFO)) →
        c.cmsg_level = IPPROTO_IPV6 → c.cmsg_type = IPV6_PKTINFO →
        Udp.find_header msg init = (0, c.cmsg_data))
    ∧ ((∀ c ∈ msg.msg_control, ¬ (c.cmsg_level = IPPROTO_IPV6 ∧ c.cmsg_type = IPV6_PKTINFO)) →
        Udp.find_header msg init = (-1, init)
        ∧ Udp.handle_one_packet libc fd port ⟨Udp.RecvOutcome.datagram payload src msg.msg_control, init⟩
            = Proc.ret () [Event.recvmsg fd 100 1 256 0 ((min payload.length 100 : Nat) : Int),
                Event.stderr "dsfs\n"]) := by
  have hfind := find_header_loop_find msg.msg_control init
  have hiff : ∀ c : Cmsghdr, Cmsghdr.isPktinfo c = true ↔
      (c.cmsg_level = IPPROTO_IPV6 ∧ c.cmsg_type = IPV6_PKTINFO) := by
    intro c; simp [Cmsghdr.isPktinfo]
  refine ⟨?_, ?_, ?_⟩
  · unfold Udp.find_header Udp.CMSG_FIRSTHDR
    rw [hfind]
    cases hf : msg.msg_control.find? Cmsghdr.isPktinfo with
    | none =>
      rw [List.find?_eq_none] at hf
      constructor
      · intro h
        simp at h
      · rintro ⟨c, hc, h1, h2⟩
        exact absurd ((hiff c).2 ⟨h1, h2⟩) (hf c hc)
    | some c =>
      constructor
      · intro _
        exact ⟨c, List.mem_of_find?_eq_some hf, (hiff c).1 (List.find?_some hf)⟩
      · intro _
        rfl
  · intro pre c post hsplit hpre h1 h2
    unfold Udp.find_header Udp.CMSG_FIRSTHDR
    rw [hfind, hsplit, find_first_of_split pre post c _ ((hiff c).2 ⟨h1, h2⟩)]
    intro d hd
    have := hpre d hd
    rw [← hiff d] at this
    simpa using this
  · intro hnone
    have hf : msg.msg_control.find? Cmsghdr.isPktinfo = none := by
      rw [List.find?_eq_none]
      intro c hc hp
      exact hnone c hc ((hiff c).1 hp)
    have h1 : Udp.find_header msg init = (-1, init) := by
      unfold Udp.find_header Udp.CMSG_FIRSTHDR
      rw [hfind, hf]
    refine ⟨h1, ?_⟩
    have h2 : ∀ m : Msghdr, m.msg_control = msg.msg_control →
        Udp.find_header m init = (-1, init) := by
      intro m hm
      unfold Udp.find_header Udp.CMSG_FIRSTHDR
      rw [hm, hfind, hf]
    unfold Udp.handle_one_packet
    have h3 := h2 ⟨src, sizeof_sockaddr_in6, List.take 100 payload, 100, 1, msg.msg_control, 256⟩ rfl
    have h4 : ¬ (((min payload.length 100 : Nat) : Int) < 0) := by omega
    simp only [Udp.sys_recvmsg]
    rw [if_neg h4, h3]
    simp

/-- Witness of C2: a `SOL_SOCKET` record, then two destination records. -/
theorem C2_find_header_first_pktinfo_witness :
    Udp.find_header
        ⟨SockaddrIn6.zero, 28, [], 100, 1,
          [⟨1, 29, ⟨in6addr_any, 0⟩⟩, ⟨41, 50, ⟨in6addr_loopback, 2⟩⟩,
           ⟨41, 50, ⟨in6addr_any, 7⟩⟩], 256⟩
        ⟨in6addr_any, 0⟩
      = (0, ⟨in6addr_loopback, 2⟩) :=
  (C2_find_header_first_pktinfo Libc.sample
      ⟨SockaddrIn6.zero, 28, [], 100, 1,
        [⟨1, 29, ⟨in6addr_any, 0⟩⟩, ⟨41, 50, ⟨in6addr_loopback, 2⟩⟩,
         ⟨41, 50, ⟨in6addr_any, 7⟩⟩], 256⟩
      ⟨in6addr_any, 0⟩ 3 8080 [] SockaddrIn6.zero).2.1
    [⟨1, 29, ⟨in6addr_any, 0⟩⟩] ⟨41, 50, ⟨in6addr_loopback, 2⟩⟩ [⟨41, 50, ⟨in6addr_any, 7⟩⟩]
    rfl (by decide) (by decide) (by decide)

/-! ## Initialisation -/

theorem ntohs_htons (port : Int) (h : 0 ≤ port ∧ port ≤ 65535) :
    (ntohs (htons port) : Int) = port := by
  obtain ⟨n, rfl⟩ := Int.eq_ofNat_of_zero_le h.1
  have hn : n ≤ 65535 := by omega
  have h1 : ((n : Int) % 65536).toNat = n := by omega
  have key : ((n % 256 * 256 + n / 256) % 65536 % 256) * 256
      + (n % 256 * 256 + n / 256) % 65536 / 256 = n := by
    have hb : n / 256 < 256 := by omega
    have hy : (n % 256 * 256 + n / 256) % 65536 = n % 256 * 256 + n / 256 :=
      Nat.mod_eq_of_lt (by omega)
    have hlo : (n % 256 * 256 + n / 256) % 256 = n / 256 := by omega
    have hhi : (n % 256 * 256 + n / 256) / 256 = n % 256 := by omega
    rw [hy, hlo, hhi]
    omega
  unfold ntohs htons
  rw [h1, key]

theorem tcp_bind_guarded (libc : Libc) (port : Int) (env : Tcp.InitEnv) :
    bind_guarded (Tcp.init_server libc port env).2 port := by
  unfold Tcp.init_server
  intro i fd addr len r
  dsimp only
  split_ifs with h1 h2 h3 h4 h5 <;> intro h
  all_goals
    rcases i with _ | _ | _ | _ | _ | _ | i <;>
      simp [v6only_cleared_at] at h ⊢
  all_goals
    obtain ⟨rfl, rfl, rfl, rfl⟩ := h
    refine ⟨⟨2, by omega, env.setsockopt_v6only.ret, by omega, by simp⟩, rfl, rfl, rfl⟩

theorem udp_bind_guarded (libc : Libc) (port : Int) (env : Udp.InitEnv) :
    bind_guarded (Udp.init_server libc port env).2 port := by
  unfold Udp.init_server
  intro i fd addr len r
  dsimp only
  split_ifs with h1 h2 h3 h4 <;> intro h
  all_goals
    rcases i with _ | _ | _ | _ | _ | i <;>
      simp [v6only_cleared_at] at h ⊢
  all_goals
    obtain ⟨rfl, rfl, rfl, rfl⟩ := h
    refine ⟨⟨2, by omega, env.setsockopt_v6only.ret, by omega, by simp⟩, rfl, rfl, rfl⟩

theorem tcp_returned_fd_dual_stack (libc : Libc) (port : Int) (env : Tcp.InitEnv) :
    returned_fd_dual_stack (Tcp.init_server libc port env) := by
  unfold returned_fd_dual_stack Tcp.init_server
  dsimp only
  split_ifs with h1 h2 h3 h4 h5
  all_goals intro h0
  all_goals dsimp only at h0
  all_goals first
    | exact absurd h0 (by decide)
    | skip
  exact ⟨3, 2, ⟨AF_INET6, htons port, in6addr_any⟩, sizeof_sockaddr_in6, env.bind.ret,
    by omega, ⟨env.setsockopt_v6only.ret, by omega, by simp⟩, by simp, by omega⟩

theorem udp_returned_fd_dual_stack (libc : Libc) (port : Int) (env : Udp.InitEnv) :
    returned_fd_dual_stack (Udp.init_server libc port env) := by
  unfold returned_fd_dual_stack Udp.init_server
  dsimp only
  split_ifs with h1 h2 h3 h4
  all_goals intro h0
  all_goals dsimp only at h0
  all_goals first
    | exact absurd h0 (by decide)
    | skip
  exact ⟨3, 2, ⟨AF_INET6, htons port, in6addr_any⟩, sizeof_sockaddr_in6, env.bind.ret,
    by omega, ⟨env.setsockopt_v6only.ret, by omega, by simp⟩, by simp, by omega⟩

/-- C3: in both servers, for every port and all results of the system calls,
every `bind` that `init_server` makes comes after a successful
`setsockopt(fd, IPPROTO_IPV6, IPV6_V6ONLY, {0})` earlier in the trace on the
same descriptor, and is made with family `AF_INET6`, the wildcard address
`in6addr_any` and the port field `htons(port)`, which reads back as the given
port for every 16-bit port number; every descriptor `init_server` returns has
had `IPV6_V6ONLY` cleared with success before it was bound with success. -/
theorem C3_v6only_cleared_before_bind (libc : Libc) (port : Int)
    (tenv : Tcp.InitEnv) (uenv : Udp.InitEnv) :
    bind_guarded (Tcp.init_server libc port tenv).2 port
    ∧ returned_fd_dual_stack (Tcp.init_server libc port tenv)
    ∧ bind_guarded (Udp.init_server libc port uenv).2 port
    ∧ returned_fd_dual_stack (Udp.init_server libc port uenv)
    ∧ (0 ≤ port ∧ port ≤ 65535 → (ntohs (htons port) : Int) = port) :=
  ⟨tcp_bind_guarded libc port tenv, tcp_returned_fd_dual_stack libc port tenv,
   udp_bind_guarded libc port uenv, udp_returned_fd_dual_stack libc port uenv,
   ntohs_htons port⟩

/-- Witness of C3: port 8080, all calls succeed on descriptor 3. -/
theorem C3_v6only_cleared_before_bind_witness :
    (0 ≤ (8080 : Int) ∧ (8080 : Int) ≤ 65535) ∧ (ntohs (htons 8080) : Int) = 8080 :=
  ⟨by decide, (C3_v6only_cleared_before_bind Libc.sample 8080
    ⟨⟨3, 0⟩, ⟨0, 0⟩, ⟨0, 0⟩, ⟨0, 0⟩, ⟨0, 0⟩⟩ ⟨⟨3, 0⟩, ⟨0, 0⟩, ⟨0, 0⟩, ⟨0, 0⟩⟩).2.2.2.2
    (by decide)⟩

theorem tcp_init_first_failure (libc : Libc) (port : Int) (env : Tcp.InitEnv) (k : Nat)
    (hk : k < 5) (hprev : ∀ j, j < k → 0 ≤ (Tcp.init_rets env).getD j 0)
    (hfail : (Tcp.init_rets env).getD k 0 < 0) :
    (Tcp.init_server libc port env).1 = -1
    ∧ syscalls_of (Tcp.init_server libc port env).2 = (Tcp.init_steps port env).take (k + 1) := by
  have h0 := hprev 0
  have h1 := hprev 1
  have h2 := hprev 2
  have h3 := hprev 3
  rcases k with _ | _ | _ | _ | _ | k
  all_goals simp [Tcp.init_rets] at h0 h1 h2 h3 hfail
  · simp [Tcp.init_server, hfail, Tcp.init_steps, syscalls_of]
  · simp [Tcp.init_server, hfail, Int.not_lt.mpr h0, Tcp.init_steps, syscalls_of]
  · simp [Tcp.init_server, hfail, Int.not_lt.mpr h0, Int.not_lt.mpr h1, Tcp.init_steps,
      syscalls_of]
  · simp [Tcp.init_server, hfail, Int.not_lt.mpr h0, Int.not_lt.mpr h1, Int.not_lt.mpr h2,
      Tcp.init_steps, syscalls_of]
  · simp [Tcp.init_server, hfail, Int.not_lt.mpr h0, Int.not_lt.mpr h1, Int.not_lt.mpr h2,
      Int.not_lt.mpr h3, Tcp.init_steps, syscalls_of]

theorem udp_init_first_failure (libc : Libc) (port : Int) (env : Udp.InitEnv) (k : Nat)
    (hk : k < 4) (hprev : ∀ j, j < k → 0 ≤ (Udp.init_rets env).getD j 0)
    (hfail : (Udp.init_rets env).getD k 0 < 0) :
    (Udp.init_server libc port env).1 = -1
    ∧ syscalls_of (Udp.init_server libc port env).2 = (Udp.init_steps port env).take (k + 1) := by
  have h0 := hprev 0
  have h1 := hprev 1
  have h2 := hprev 2
  rcases k with _ | _ | _ | _ | k
  all_goals simp [Udp.init_rets] at h0 h1 h2 hfail
  · simp [Udp.init_server, hfail, Udp.init_steps, syscalls_of]
  · simp [Udp.init_server, hfail, Int.not_lt.mpr h0, Udp.init_steps, syscalls_of]
  · simp [Udp.init_server, hfail, Int.not_lt.mpr h0, Int.not_lt.mpr h1, Udp.init_steps,
      syscalls_of]
  · simp [Udp.init_server, hfail, Int.not_lt.mpr h0, Int.not_lt.mpr h1, Int.not_lt.mpr h2,
      Udp.init_steps, syscalls_of]

theorem tcp_init_result (libc : Libc) (port : Int) (env : Tcp.InitEnv) :
    ((∀ r ∈ Tcp.init_rets env, 0 ≤ r) →
        Tcp.init_server libc port env = (env.socket.ret, Tcp.init_steps port env))
    ∧ ((∃ r ∈ Tcp.init_rets env, r < 0) →
        (Tcp.init_server libc port env).1 = -1
        ∧ ∀ e ∈ (Tcp.init_server libc port env).2, Event.isWait e = false) := by
  constructor
  · intro h
    simp only [Tcp.init_rets, List.mem_cons, List.mem_singleton, forall_eq_or_imp, forall_eq,
      List.not_mem_nil, false_implies, implies_true, and_true] at h
    obtain ⟨h0, h1, h2, h3, h4⟩ := h
    simp [Tcp.init_server, Int.not_lt.mpr h0, Int.not_lt.mpr h1, Int.not_lt.mpr h2,
      Int.not_lt.mpr h3, Int.not_lt.mpr h4, Tcp.init_steps]
  · intro h
    simp only [Tcp.init_rets, List.mem_cons, List.mem_singleton, exists_eq_or_imp, exists_eq_left,
      List.not_mem_nil, false_and, exists_false, or_false] at h
    unfold Tcp.init_server
    dsimp only
    split_ifs with h0 h1 h2 h3 h4
    all_goals first
      | (exfalso; omega)
      | (refine ⟨rfl, ?_⟩
         intro e he
         simp at he
         rcases he with rfl | rfl | rfl | rfl | rfl | rfl <;> rfl)

theorem udp_init_result (libc : Libc) (port : Int) (env : Udp.InitEnv) :
    ((∀ r ∈ Udp.init_rets env, 0 ≤ r) →
        Udp.init_server libc port env = (env.socket.ret, Udp.init_steps port env))
    ∧ ((∃ r ∈ Udp.init_rets env, r < 0) →
        (Udp.init_server libc port env).1 = -1
        ∧ ∀ e ∈ (Udp.init_server libc port env).2, Event.isWait e = false) := by
  constructor
  · intro h
    simp only [Udp.init_rets, List.mem_cons, List.mem_singleton, forall_eq_or_imp, forall_eq,
      List.not_mem_nil, false_implies, implies_true, and_true] at h
    obtain ⟨h0, h1, h2, h3⟩ := h
    simp [Udp.init_server, Int.not_lt.mpr h0, Int.not_lt.mpr h1, Int.not_lt.mpr h2,
      Int.not_lt.mpr h3, Udp.init_steps]
  · intro h
    simp only [Udp.init_rets, List.mem_cons, List.mem_singleton, exists_eq_or_imp, exists_eq_left,
      List.not_mem_nil, false_and, exists_false, or_false] at h
    unfold Udp.init_server
    dsimp only
    split_ifs with h0 h1 h2 h3
    all_goals first
      | (exfalso; omega)
      | (refine ⟨rfl, ?_⟩
         intro e he
         simp at he
         rcases he with rfl | rfl | rfl | rfl | rfl <;> rfl)

theorem parse_port_trace (libc : Libc) (str : List Char) :
    ∀ e ∈ (parse_port libc str).2, Event.isWait e = false ∧ Event.isSocket e = false := by
  unfold parse_port
  dsimp only
  split_ifs <;> intro e he <;> simp at he <;> subst he <;> exact ⟨rfl, rfl⟩

theorem tcp_main_init_failure (libc : Libc) (env : Tcp.Env)
    (h : ∃ r ∈ Tcp.init_rets env.init, r < 0) (argv : List (List Char)) (n : Nat) :
    ∃ t, Tcp.main libc argv env n = MainResult.exited 1 t ∧ ∀ e ∈ t, Event.isWait e = false := by
  unfold Tcp.main
  dsimp only
  split_ifs with h1 h2 h3
  · exact ⟨_, rfl, by intro e he; simp at he; subst he; rfl⟩
  · exact ⟨_, rfl, fun e he => (parse_port_trace libc _ e he).1⟩
  · refine ⟨_, rfl, ?_⟩
    intro e he
    rcases List.mem_append.1 he with he | he
    · exact (parse_port_trace libc _ e he).1
    · simp at he; subst he; rfl
  · obtain ⟨hr, ht⟩ := (tcp_init_result libc (parse_port libc (argv.getD 1 [])).1 env.init).2 h
    have hs : Tcp.main_serve libc (parse_port libc (argv.getD 1 [])).1 env n
        = MainResult.exited 1 (Tcp.init_server libc (parse_port libc (argv.getD 1 [])).1 env.init).2 := by
      unfold Tcp.main_serve
      dsimp only
      rw [if_pos (by rw [hr]; decide)]
    rw [hs]
    refine ⟨_, rfl, ?_⟩
    intro e he
    rcases List.mem_append.1 he with he | he
    · exact (parse_port_trace libc _ e he).1
    · exact ht e he

theorem udp_main_init_failure (libc : Libc) (env : Udp.Env)
    (h : ∃ r ∈ Udp.init_rets env.init, r < 0) (argv : List (List Char)) (n : Nat) :
    ∃ t, Udp.main libc argv env n = MainResult.exited 1 t ∧ ∀ e ∈ t, Event.isWait e = false := by
  unfold Udp.main
  dsimp only
  split_ifs with h1 h2 h3
  · exact ⟨_, rfl, by intro e he; simp at he; subst he; rfl⟩
  · exact ⟨_, rfl, fun e he => (parse_port_trace libc _ e he).1⟩
  · refine ⟨_, rfl, ?_⟩
    intro e he
    rcases List.mem_append.1 he with he | he
    · exact (parse_port_trace libc _ e he).1
    · simp at he; subst he; rfl
  · obtain ⟨hr, ht⟩ := (udp_init_result libc (parse_port libc (argv.getD 1 [])).1 env.init).2 h
    have hs : Udp.main_serve libc (parse_port libc (argv.getD 1 [])).1 env n
        = MainResult.exited 1 (Udp.init_server libc (parse_port libc (argv.getD 1 [])).1 env.init).2 := by
      unfold Udp.main_serve
      dsimp only
      rw [if_pos (by rw [hr]; decide)]
    rw [hs]
    refine ⟨_, rfl, ?_⟩
    intro e he
    rcases List.mem_append.1 he with he | he
    · exact (parse_port_trace libc _ e he).1
    · exact ht e he

theorem exists_neg_of_getD (l : List Int) (k : Nat) (h : l.getD k 0 < 0) : ∃ r ∈ l, r < 0 := by
  induction l generalizing k with
  | nil => simp at h
  | cons a l ih =>
    cases k with
    | zero => exact ⟨a, List.mem_cons_self _ _, by simpa using h⟩
    | succ k =>
      obtain ⟨r, hr, hlt⟩ := ih k (by simpa using h)
      exact ⟨r, List.mem_cons_of_mem _ hr, hlt⟩

/-- C4: in both servers, when step `k` of `init_server` (counted in source
order: `socket`, the protocol-specific `setsockopt`, the `IPV6_V6ONLY`
`setsockopt`, `bind`, and `listen` in the stream server) is the first to
return a negative value, the system calls made are exactly the steps up to
and including `k`, `init_server` returns a negative value, and `main`, for
any arguments and any length of run, exits with code 1 after a trace without
`accept` or `recvmsg`; `init_server` returns a non-negative value only when
every step returned a non-negative value. -/
theorem C4_init_failure_aborts (libc : Libc) (port : Int) (tenv : Tcp.Env) (uenv : Udp.Env) :
    (∀ k, k < 5 → (∀ j, j < k → 0 ≤ (Tcp.init_rets tenv.init).getD j 0) →
        (Tcp.init_rets tenv.init).getD k 0 < 0 →
          (Tcp.init_server libc port tenv.init).1 < 0
          ∧ syscalls_of (Tcp.init_server libc port tenv.init).2
              = (Tcp.init_steps port tenv.init).take (k + 1)
          ∧ ∀ argv n, ∃ t, Tcp.main libc argv tenv n = MainResult.exited 1 t
              ∧ ∀ e ∈ t, Event.isWait e = false)
    ∧ (0 ≤ (Tcp.init_server libc port tenv.init).1 → ∀ r ∈ Tcp.init_rets tenv.init, 0 ≤ r)
    ∧ (∀ k, k < 4 → (∀ j, j < k → 0 ≤ (Udp.init_rets uenv.init).getD j 0) →
        (Udp.init_rets uenv.init).getD k 0 < 0 →
          (Udp.init_server libc port uenv.init).1 < 0
          ∧ syscalls_of (Udp.init_server libc port uenv.init).2
              = (Udp.init_steps port uenv.init).take (k + 1)
          ∧ ∀ argv n, ∃ t, Udp.main libc argv uenv n = MainResult.exited 1 t
              ∧ ∀ e ∈ t, Event.isWait e = false)
    ∧ (0 ≤ (Udp.init_server libc port uenv.init).1 → ∀ r ∈ Udp.init_rets uenv.init, 0 ≤ r) := by
  refine ⟨?_, ?_, ?_, ?_⟩
  · intro k hk hprev hfail
    obtain ⟨h1, h2⟩ := tcp_init_first_failure libc port tenv.init k hk hprev hfail
    refine ⟨by rw [h1]; decide, h2, ?_⟩
    intro argv n
    exact tcp_main_init_failure libc tenv (exists_neg_of_getD _ k hfail) argv n
  · intro h r hr
    by_contra hneg
    have := ((tcp_init_result libc port tenv.init).2 ⟨r, hr, by omega⟩).1
    rw [this] at h
    exact absurd h (by decide)
  · intro k hk hprev hfail
    obtain ⟨h1, h2⟩ := udp_init_first_failure libc port uenv.init k hk hprev hfail
    refine ⟨by rw [h1]; decide, h2, ?_⟩
    intro argv n
    exact udp_main_init_failure libc uenv (exists_neg_of_getD _ k hfail) argv n
  · intro h r hr
    by_contra hneg
    have := ((udp_init_result libc port uenv.init).2 ⟨r, hr, by omega⟩).1
    rw [this] at h
    exact absurd h (by decide)

/-- Witness of C4: `bind` (step 3) is the first call to fail in the stream
server. -/
theorem C4_init_failure_aborts_witness :
    (Tcp.init_rets Tcp.env_bind_fails.init).getD 3 0 < 0
    ∧ (Tcp.init_server Libc.sample 8080 Tcp.env_bind_fails.init).1 < 0
    ∧ syscalls_of (Tcp.init_server Libc.sample 8080 Tcp.env_bind_fails.init).2
        = (Tcp.init_steps 8080 Tcp.env_bind_fails.init).take 4 :=
  ⟨by decide,
   ((C4_init_failure_aborts Libc.sample 8080 Tcp.env_bind_fails Udp.env_ok).1 3 (by decide)
      (by
        intro j hj
        rcases j with _ | _ | _ | j
        · decide
        · decide
        · decide
        · omega)
      (by decide)).1,
   ((C4_init_failure_aborts Libc.sample 8080 Tcp.env_bind_fails Udp.env_ok).1 3 (by decide)
      (by
        intro j hj
        rcases j with _ | _ | _ | j
        · decide
        · decide
        · decide
        · omega)
      (by decide)).2.1⟩

/-- C8: what the code does where the claim fails. In both servers the
diagnostic printed when `socket` fails and the one printed when the first
`setsockopt` (`SO_REUSEADDR`, resp. `IPV6_RECVPKTINFO`) fails are the same
text, `Error opening socket: ` followed by the error text: the two steps
cannot be told apart. -/
theorem C8_socket_and_first_setsockopt_same_text (libc : Libc) (port errno : Int) :
    stderr_of (Tcp.init_server libc port ⟨⟨-1, errno⟩, ⟨0, 0⟩, ⟨0, 0⟩, ⟨0, 0⟩, ⟨0, 0⟩⟩).2
      = ["Error opening socket: " ++ libc.strerror errno ++ "\n"]
    ∧ stderr_of (Tcp.init_server libc port ⟨⟨3, 0⟩, ⟨-1, errno⟩, ⟨0, 0⟩, ⟨0, 0⟩, ⟨0, 0⟩⟩).2
      = ["Error opening socket: " ++ libc.strerror errno ++ "\n"]
    ∧ stderr_of (Udp.init_server libc port ⟨⟨-1, errno⟩, ⟨0, 0⟩, ⟨0, 0⟩, ⟨0, 0⟩⟩).2
      = ["Error opening socket: " ++ libc.strerror errno ++ "\n"]
    ∧ stderr_of (Udp.init_server libc port ⟨⟨3, 0⟩, ⟨-1, errno⟩, ⟨0, 0⟩, ⟨0, 0⟩⟩).2
      = ["Error opening socket: " ++ libc.strerror errno ++ "\n"] := by
  refine ⟨?_, ?_, ?_, ?_⟩ <;> simp [Tcp.init_server, Udp.init_server, stderr_of]

/-! ## The loops -/

theorem tcp_accept_cases (libc : Libc) (fd : Int) (e : Tcp.ConnEnv) :
    Tcp.accept_new_client libc fd e =
      if e.accept_ret < 0 then
        Proc.ret (-1) [Event.accept fd e.accept_ret, Event.stderr "Cannot accept new connection\n"]
      else if e.getsockname_ret ≠ 0 then
        Proc.ret (-1) [Event.accept fd e.accept_ret,
          Event.getsockname e.accept_ret e.getsockname_ret,
          Event.stderr "Cannot call getsockname!\n"]
      else
        Proc.ret e.accept_ret [Event.accept fd e.accept_ret, Event.getsockname e.accept_ret 0,
          Event.stdout (Tcp.peer_line libc e)] := by
  unfold Tcp.accept_new_client Tcp.sys_accept Tcp.sys_getsockname Tcp.peer_line
  by_cases h1 : e.accept_ret < 0
  · simp [h1]
  · by_cases h2 : e.getsockname_ret = 0
    · simp [h1, h2, inet_ntop_100]
    · simp [h1, h2]

theorem tcp_body_cases (libc : Libc) (fd : Int) (e : Tcp.ConnEnv) :
    Tcp.mainloop_body libc fd e =
      if e.accept_ret < 0 then
        Proc.ret () [Event.accept fd e.accept_ret, Event.stderr "Cannot accept new connection\n"]
      else if e.getsockname_ret ≠ 0 then
        Proc.ret () [Event.accept fd e.accept_ret,
          Event.getsockname e.accept_ret e.getsockname_ret,
          Event.stderr "Cannot call getsockname!\n"]
      else
        match e.write with
        | WriteOutcome.returns w =>
          Proc.ret () ([Event.accept fd e.accept_ret, Event.getsockname e.accept_ret 0,
              Event.stdout (Tcp.peer_line libc e),
              Event.write e.accept_ret "Hello, world.\n" 14 w]
            ++ (if w = 14 then []
                else [Event.stderr "Failure or not written all bytes to client!\n"])
            ++ [Event.close e.accept_ret])
        | WriteOutcome.sigpipe =>
          Proc.killed [Event.accept fd e.accept_ret, Event.getsockname e.accept_ret 0,
              Event.stdout (Tcp.peer_line libc e),
              Event.write_sigpipe e.accept_ret "Hello, world.\n" 14] := by
  unfold Tcp.mainloop_body
  rw [tcp_accept_cases]
  have hb : Tcp.buf_len = 14 := by decide
  have hs : Tcp.buf = "Hello, world.\n" := rfl
  by_cases h1 : e.accept_ret < 0
  · simp [h1]
  · by_cases h2 : e.getsockname_ret = 0
    · cases hw : e.write with
      | sigpipe => simp [h1, h2, hb, hs]
      | returns w =>
        by_cases h3 : w = 14
        · simp [h1, h2, h3, hb, hs]
        · simp [h1, h2, h3, hb, hs]
    · simp [h1, h2]

theorem udp_packet_datagram (libc : Libc) (fd port : Int) (payload : List Nat)
    (src : SockaddrIn6) (control : List Cmsghdr) (u : In6Pktinfo) :
    Udp.handle_one_packet libc fd port ⟨Udp.RecvOutcome.datagram payload src control, u⟩
      = match control.find? Cmsghdr.isPktinfo with
        | none => Proc.ret () [Event.recvmsg fd 100 1 256 0 ((min payload.length 100 : Nat) : Int),
            Event.stderr "dsfs\n"]
        | some c => Proc.ret () [Event.recvmsg fd 100 1 256 0 ((min payload.length 100 : Nat) : Int),
            Event.stdout (Udp.peer_line libc src c port),
            Event.stdout ("Server " ++ fmt_d ((min payload.length 100 : Nat) : Int)
              ++ " received bytes of data from the client.\n")] := by
  have h4 : ¬ (((min payload.length 100 : Nat) : Int) < 0) := by omega
  have hf : Udp.find_header
      ⟨src, sizeof_sockaddr_in6, List.take 100 payload, 100, 1, control, 256⟩ u
        = match control.find? Cmsghdr.isPktinfo with
          | some c => (0, c.cmsg_data)
          | none => (-1, u) := by
    unfold Udp.find_header Udp.CMSG_FIRSTHDR
    exact find_header_loop_find control u
  unfold Udp.handle_one_packet
  simp only [Udp.sys_recvmsg]
  rw [if_neg h4, hf]
  cases control.find? Cmsghdr.isPktinfo with
  | none => simp
  | some c => simp [inet_ntop_100, Udp.peer_line]

/-- C10: what the code does where the claim fails. When `accept` returns a
descriptor and `getsockname` then fails, the pass ends after the diagnostic
with no `close` of that descriptor; in a run of two passes, descriptor 4 of
the first pass is still open when the second `accept` is made, and is never
closed. -/
theorem C10_getsockname_failure_leaves_session_open :
    (∀ (libc : Libc) (listening_fd : Int) (peer loc : SockaddrIn6) (w : WriteOutcome),
        Tcp.mainloop_body libc listening_fd ⟨4, peer, -1, loc, w⟩
          = Proc.ret () [Event.accept listening_fd 4, Event.getsockname 4 (-1),
              Event.stderr "Cannot call getsockname!\n"])
    ∧ Tcp.mainloop Libc.sample 3
          (fun i => if i = 0 then Tcp.conn_getsockname_fails else Tcp.conn_served) 2
        = Proc.ret () [Event.accept 3 4, Event.getsockname 4 (-1),
            Event.stderr "Cannot call getsockname!\n",
            Event.accept 3 5, Event.getsockname 5 0,
            Event.stdout "peer ::1 ( 5001)  ->  local ::1 (   80)\n",
            Event.write 5 "Hello, world.\n" 14 14, Event.close 5] := by
  constructor
  · intro libc listening_fd peer loc w
    rw [tcp_body_cases]
    rfl
  · decide

/-! ## The datagram report -/

/-- C7: for every datagram of `n` payload bytes whose control records hold a
destination record, `handle_one_packet` makes one `recvmsg` call offering one
buffer (`msg_iovlen` 1) of 100 bytes and a control buffer of 256 bytes, gets
`min n 100` back, and prints that number in its second line; the number is
never above 100, is 50 for 50 bytes and 100 for 150 bytes. -/
theorem C7_reported_length_at_most_100 (libc : Libc) (fd port : Int) (payload : List Nat)
    (src : SockaddrIn6) (control : List Cmsghdr) (u : In6Pktinfo)
    (h : ∃ c ∈ control, c.cmsg_level = IPPROTO_IPV6 ∧ c.cmsg_type = IPV6_PKTINFO) :
    (∃ line, Udp.handle_one_packet libc fd port ⟨Udp.RecvOutcome.datagram payload src control, u⟩
      = Proc.ret () [Event.recvmsg fd 100 1 256 0 ((min payload.length 100 : Nat) : Int),
          Event.stdout line,
          Event.stdout ("Server " ++ fmt_d ((min payload.length 100 : Nat) : Int)
            ++ " received bytes of data from the client.\n")])
    ∧ min payload.length 100 ≤ 100
    ∧ (payload.length = 50 → min payload.length 100 = 50)
    ∧ (payload.length = 150 → min payload.length 100 = 100) := by
  refine ⟨?_, by omega, by omega, by omega⟩
  obtain ⟨c, hc, h1, h2⟩ := h
  rw [udp_packet_datagram]
  cases hf : control.find? Cmsghdr.isPktinfo with
  | none =>
    rw [List.find?_eq_none] at hf
    exact absurd (by simp [Cmsghdr.isPktinfo, h1, h2]) (hf c hc)
  | some d => exact ⟨_, rfl⟩

/-- Witness of C7: a datagram of 150 bytes. -/
theorem C7_reported_length_at_most_100_witness :
    ∃ line, Udp.handle_one_packet Libc.sample 3 8080 Udp.packet_150
      = Proc.ret () [Event.recvmsg 3 100 1 256 0
            ((min (List.replicate 150 0).length 100 : Nat) : Int),
          Event.stdout line,
          Event.stdout ("Server " ++ fmt_d ((min (List.replicate 150 0).length 100 : Nat) : Int)
            ++ " received bytes of data from the client.\n")] :=
  (C7_reported_length_at_most_100 Libc.sample 3 8080 (List.replicate 150 0)
    ⟨10, htons 5000, in6addr_loopback⟩ [⟨41, 50, ⟨in6addr_loopback, 1⟩⟩] ⟨in6addr_any, 0⟩
    ⟨⟨41, 50, ⟨in6addr_loopback, 1⟩⟩, by simp, by decide, by decide⟩).1

/-! ## The report line -/

/-- C9, as stated, fails. For a connection from `::1` port 5000 to `::1` port
80 the stream server prints `peer ::1 ( 5000)  ->  local ::1 (   80)`, not the
line `peer ::1 (5000) -> local ::1 (80)`; for a datagram the datagram server
prints two lines on standard output, not one. -/
theorem C9_line_is_padded_and_datagram_prints_two :
    stdout_of (Tcp.mainloop_body Libc.sample 3 Tcp.conn_short_write).trace
        = ["peer ::1 ( 5000)  ->  local ::1 (   80)\n"]
    ∧ ¬ stdout_of (Tcp.mainloop_body Libc.sample 3 Tcp.conn_short_write).trace
        = [spec_peer_line (Libc.sample.inet_ntop6 Tcp.conn_short_write.peer_addr.sin6_addr)
            (ntohs Tcp.conn_short_write.peer_addr.sin6_port)
            (Libc.sample.inet_ntop6 Tcp.conn_short_write.local_addr.sin6_addr)
            (ntohs Tcp.conn_short_write.local_addr.sin6_port)]
    ∧ stdout_of (Udp.handle_one_packet Libc.sample 3 8080 Udp.packet_150).trace
        = ["peer ::1 ( 5000)  ->  local ::1 ( 8080)\n",
           "Server 100 received bytes of data from the client.\n"] := by
  refine ⟨?_, ?_, ?_⟩
  · rw [tcp_body_cases]
    decide
  · rw [tcp_body_cases]
    decide
  · unfold Udp.packet_150
    rw [udp_packet_datagram]
    set_option maxRecDepth 4000 in decide

/-- C9, amended. For every connection the stream server has accepted and
queried with success it prints exactly one line on standard output, and for
every datagram with a destination record the datagram server prints exactly
two: in both the first line is `peer A (P)  ->  local B (Q)` with two blanks
on each side of the arrow and each port printed by `%5d` (decimal,
right-aligned in a field of at least five characters); the second line of
the datagram server is `Server N received bytes of data from the client.`
with `N` the length `recvmsg` returned. -/
theorem C9_report_lines (libc : Libc) (fd port : Int) (e : Tcp.ConnEnv) (payload : List Nat)
    (src : SockaddrIn6) (control : List Cmsghdr) (u : In6Pktinfo) (c : Cmsghdr)
    (hacc : 0 ≤ e.accept_ret) (hgsn : e.getsockname_ret = 0)
    (hc : control.find? Cmsghdr.isPktinfo = some c) :
    stdout_of (Tcp.mainloop_body libc fd e).trace
        = ["peer " ++ libc.inet_ntop6 e.peer_addr.sin6_addr
            ++ " (" ++ fmt_5d (ntohs e.peer_addr.sin6_port) ++ ")  ->  local "
            ++ libc.inet_ntop6 e.local_addr.sin6_addr
            ++ " (" ++ fmt_5d (ntohs e.local_addr.sin6_port) ++ ")\n"]
    ∧ stdout_of (Udp.handle_one_packet libc fd port
          ⟨Udp.RecvOutcome.datagram payload src control, u⟩).trace
        = ["peer " ++ libc.inet_ntop6 src.sin6_addr
            ++ " (" ++ fmt_5d (ntohs src.sin6_port) ++ ")  ->  local "
            ++ libc.inet_ntop6 c.cmsg_data.ipi6_addr
            ++ " (" ++ fmt_5d port ++ ")\n",
           "Server " ++ fmt_d ((min payload.length 100 : Nat) : Int)
            ++ " received bytes of data from the client.\n"]
    ∧ (∀ n : Nat, fmt_5d n = String.mk (List.replicate (5 - (Nat.toDigits 10 n).length) ' ')
        ++ String.mk (Nat.toDigits 10 n)) := by
  refine ⟨?_, ?_, ?_⟩
  · rw [tcp_body_cases, if_neg (by omega), if_neg (by simpa using hgsn)]
    cases e.write with
    | sigpipe => simp [Proc.trace, stdout_of, Tcp.peer_line, printf_peer_local]
    | returns w =>
      by_cases hw : w = 14
      · simp [hw, Proc.trace, stdout_of, Tcp.peer_line, printf_peer_local]
      · simp [hw, Proc.trace, stdout_of, Tcp.peer_line, printf_peer_local]
  · rw [udp_packet_datagram, hc]
    simp [Proc.trace, stdout_of, Udp.peer_line, printf_peer_local]
  · intro n
    have h : ¬ ((n : Int) < 0) := by omega
    simp [fmt_5d, fmt_d, h, String.length]

/-- Witness of C9 amended: the connection and the datagram of the
counterexample, with ports of four and two digits. -/
theorem C9_report_lines_witness :
    stdout_of (Tcp.mainloop_body Libc.sample 3 Tcp.conn_short_write).trace
        = ["peer " ++ Libc.sample.inet_ntop6 Tcp.conn_short_write.peer_addr.sin6_addr
            ++ " (" ++ fmt_5d (ntohs Tcp.conn_short_write.peer_addr.sin6_port) ++ ")  ->  local "
            ++ Libc.sample.inet_ntop6 Tcp.conn_short_write.local_addr.sin6_addr
            ++ " (" ++ fmt_5d (ntohs Tcp.conn_short_write.local_addr.sin6_port) ++ ")\n"] :=
  (C9_report_lines Libc.sample 3 8080 Tcp.conn_short_write (List.replicate 150 0)
    ⟨10, htons 5000, in6addr_loopback⟩ [⟨41, 50, ⟨in6addr_loopback, 1⟩⟩] ⟨in6addr_any, 0⟩
    ⟨41, 50, ⟨in6addr_loopback, 1⟩⟩ (by decide) (by decide) (by decide)).1

/-! ## The port argument -/

theorem sign_split (t : List Char) :
    isBase10Integer t
        = (!(if t.head? = some '-' ∨ t.head? = some '+' then t.tail else t).isEmpty
            && (if t.head? = some '-' ∨ t.head? = some '+' then t.tail else t).all isdigit)
    ∧ base10Value t
        = (if t.head? = some '-' then
            -(decimalValue (if t.head? = some '-' ∨ t.head? = some '+' then t.tail else t) : Int)
          else (decimalValue (if t.head? = some '-' ∨ t.head? = some '+' then t.tail else t) : Int))
    ∧ ∀ x ∈ (if t.head? = some '-' ∨ t.head? = some '+' then t.tail else t), x ∈ t := by
  cases t with
  | nil => simp [isBase10Integer, base10Value, decimalValue]
  | cons c r =>
    by_cases h1 : c = '-'
    · subst h1
      simp [isBase10Integer, base10Value]
      intro x hx
      exact Or.inr hx
    · by_cases h2 : c = '+'
      · subst h2
        simp [isBase10Integer, base10Value]
        intro x hx
        exact Or.inr hx
      · simp [isBase10Integer, base10Value, h1, h2]

theorem headD_ne_NUL (l : List Char) (h : NUL ∉ l) : l.headD NUL ≠ NUL ↔ l ≠ [] := by
  cases l with
  | nil => simp
  | cons a l =>
    simp only [List.headD_cons, ne_eq, not_false_eq_true, iff_true, reduceCtorEq]
    intro ha
    exact h (ha ▸ List.mem_cons_self _ _)

theorem to_int_small (v : Int) (h0 : 0 ≤ v) (h1 : v ≤ 65535) : to_int v = v := by
  unfold to_int
  omega

theorem all_digits_iff (l : List Char) :
    (!l.isEmpty && l.all isdigit) = true
      ↔ l.takeWhile isdigit ≠ [] ∧ l.dropWhile isdigit = [] := by
  constructor
  · intro h
    simp only [Bool.and_eq_true, Bool.not_eq_true', List.all_eq_true] at h
    obtain ⟨hne, hall⟩ := h
    have h1 : l.takeWhile isdigit = l := List.takeWhile_eq_self_iff.2 hall
    refine ⟨?_, List.dropWhile_eq_nil_iff.2 hall⟩
    rw [h1]
    intro hl
    rw [hl] at hne
    simp at hne
  · rintro ⟨hne, hnil⟩
    have hall := List.dropWhile_eq_nil_iff.1 hnil
    have h1 : l.takeWhile isdigit = l := List.takeWhile_eq_self_iff.2 hall
    rw [h1] at hne
    simp only [Bool.and_eq_true, Bool.not_eq_true', List.all_eq_true]
    refine ⟨?_, hall⟩
    cases l with
    | nil => exact absurd rfl hne
    | cons a l => rfl

theorem parse_port_spec (libc : Libc) (s : List Char) (hs : NUL ∉ s) :
    (∀ p, specPort (s.dropWhile isspace) = some p →
        parse_port libc s = (p, []) ∧ 1 ≤ p ∧ p ≤ 65535)
    ∧ (specPort (s.dropWhile isspace) = none →
        (∃ msg, parse_port libc s = (-1, [Event.stderr msg])) ∨ parse_port libc s = (0, [])) := by
  obtain ⟨hI, hV, hmem⟩ := sign_split (s.dropWhile isspace)
  have hsub : ∀ x ∈ s.dropWhile isspace, x ∈ s :=
    fun x hx => (List.dropWhile_sublist isspace).subset hx
  unfold specPort
  rw [hI, hV]
  unfold parse_port strtol
  dsimp only
  generalize hs1 : (if (s.dropWhile isspace).head? = some '-' ∨
      (s.dropWhile isspace).head? = some '+' then (s.dropWhile isspace).tail
      else s.dropWhile isspace) = s1 at hmem ⊢
  have hnul1 : NUL ∉ s1.dropWhile isdigit := fun h =>
    hs (hsub _ (hmem _ ((List.dropWhile_sublist isdigit).subset h)))
  have hend := headD_ne_NUL _ hnul1
  have hdig := all_digits_iff s1
  have happ := List.takeWhile_append_dropWhile isdigit s1
  by_cases hd : s1.takeWhile isdigit = []
  · have hnot : ¬ ((!s1.isEmpty && s1.all isdigit) = true) := fun h => (hdig.1 h).1 hd
    rw [if_pos hd]
    constructor
    · intro p hp
      rw [if_neg (fun h => hnot h.1)] at hp
      exact absurd hp (by simp)
    · intro _
      cases hE : libc.strtol_einval
      · simp only [Bool.false_eq_true, if_false, ne_eq, not_true_eq_false]
        by_cases hnil : s = []
        · right
          subst hnil
          simp [to_int]
        · left
          have := (headD_ne_NUL s hs).2 hnil
          rw [if_pos this]
          exact ⟨_, rfl⟩
      · left
        simp only [if_true]
        rw [if_pos (by decide)]
        exact ⟨_, rfl⟩
  · rw [if_neg hd]
    by_cases hall : (!s1.isEmpty && s1.all isdigit) = true
    · obtain ⟨_, hrest⟩ := hdig.1 hall
      have htake : s1.takeWhile isdigit = s1 := by
        rw [hrest, List.append_nil] at happ
        exact happ
      rw [htake, hrest]
      generalize (if (s.dropWhile isspace).head? = some '-' then -(decimalValue s1 : Int)
        else (decimalValue s1 : Int)) = v
      have hLmax : LONG_MAX = 9223372036854775807 := by decide
      have hLmin : LONG_MIN = -9223372036854775808 := by decide
      have hER : ERANGE ≠ 0 := by decide
      constructor
      · intro p hp
        by_cases hv : 1 ≤ v ∧ v ≤ 65535
        · rw [if_pos ⟨hall, hv⟩] at hp
          injection hp with hp
          subst hp
          have h1 : ¬ v > LONG_MAX := by rw [hLmax]; omega
          have h2 : ¬ v < LONG_MIN := by rw [hLmin]; omega
          have h3 : ¬ (v < 0 ∨ v > 2 ^ 16 - 1) := by omega
          rw [if_neg h1, if_neg h2]
          simp only [ne_eq, not_true_eq_false, if_false, List.headD_nil]
          rw [if_neg h3, to_int_small v (by omega) hv.2]
          exact ⟨rfl, hv⟩
        · rw [if_neg (fun h => hv h.2)] at hp
          exact absurd hp (by simp)
      · intro hnone
        by_cases h1 : v > LONG_MAX
        · left
          rw [if_pos h1]
          simp only [ne_eq, hER, not_false_eq_true, if_true]
          exact ⟨_, rfl⟩
        · rw [if_neg h1]
          by_cases h2 : v < LONG_MIN
          · left
            rw [if_pos h2]
            simp only [ne_eq, hER, not_false_eq_true, if_true]
            exact ⟨_, rfl⟩
          · rw [if_neg h2]
            simp only [ne_eq, not_true_eq_false, if_false, List.headD_nil]
            by_cases h3 : v < 0 ∨ v > 2 ^ 16 - 1
            · left
              rw [if_pos h3]
              exact ⟨_, rfl⟩
            · rw [if_neg h3]
              by_cases h4 : v = 0
              · right
                subst h4
                simp [to_int]
              · rw [if_pos ⟨hall, by omega, by omega⟩] at hnone
                exact absurd hnone (by simp)
    · have hrest : s1.dropWhile isdigit ≠ [] := fun h => hall (hdig.2 ⟨hd, h⟩)
      have hER : ERANGE ≠ 0 := by decide
      constructor
      · intro p hp
        rw [if_neg (fun h => hall h.1)] at hp
        exact absurd hp (by simp)
      · intro _
        left
        generalize (if (s.dropWhile isspace).head? = some '-' then
          -(decimalValue (s1.takeWhile isdigit) : Int)
          else (decimalValue (s1.takeWhile isdigit) : Int)) = v
        by_cases h1 : v > LONG_MAX
        · rw [if_pos h1]
          simp only [ne_eq, hER, not_false_eq_true, if_true]
          exact ⟨_, rfl⟩
        · rw [if_neg h1]
          by_cases h2 : v < LONG_MIN
          · rw [if_pos h2]
            simp only [ne_eq, hER, not_false_eq_true, if_true]
            exact ⟨_, rfl⟩
          · rw [if_neg h2]
            simp only [ne_eq, not_true_eq_false, if_false]
            rw [if_pos (hend.2 hrest)]
            exact ⟨_, rfl⟩

theorem tcp_main_valid (libc : Libc) (prog s : List Char) (p : Int)
    (hp : parse_port libc s = (p, [])) (h1 : 1 ≤ p) (env : Tcp.Env) (n : Nat) :
    Tcp.main libc [prog, s] env n = Tcp.main_serve libc p env n := by
  unfold Tcp.main
  simp only [List.length_cons, List.length_nil, List.getD_cons_succ, List.getD_cons_zero, hp]
  rw [if_neg (by decide), if_neg (by omega), if_neg (by omega)]
  cases Tcp.main_serve libc p env n <;> simp

theorem udp_main_valid (libc : Libc) (prog s : List Char) (p : Int)
    (hp : parse_port libc s = (p, [])) (h1 : 1 ≤ p) (env : Udp.Env) (n : Nat) :
    Udp.main libc [prog, s] env n = Udp.main_serve libc p env n := by
  unfold Udp.main
  simp only [List.length_cons, List.length_nil, List.getD_cons_succ, List.getD_cons_zero, hp]
  rw [if_neg (by decide), if_neg (by omega), if_neg (by omega)]
  cases Udp.main_serve libc p env n <;> simp

theorem main_invalid (libc : Libc) (prog s : List Char)
    (h : (∃ msg, parse_port libc s = (-1, [Event.stderr msg])) ∨ parse_port libc s = (0, [])) :
    ∃ msg, (∀ (env : Tcp.Env) (n : Nat),
        Tcp.main libc [prog, s] env n = MainResult.exited 1 [Event.stderr msg])
      ∧ (∀ (env : Udp.Env) (n : Nat),
        Udp.main libc [prog, s] env n = MainResult.exited 1 [Event.stderr msg]) := by
  rcases h with ⟨msg, hm⟩ | h0
  · refine ⟨msg, ?_, ?_⟩
    · intro env n
      unfold Tcp.main
      simp [hm]
    · intro env n
      unfold Udp.main
      simp [hm]
  · refine ⟨"Magic port number 0 is not allowed!\n", ?_, ?_⟩
    · intro env n
      unfold Tcp.main
      simp [h0]
    · intro env n
      unfold Udp.main
      simp [h0]

/-- C1, as stated, fails. The text ` 80` (a blank, then `80`) is not a
base-10 integer, yet both servers go on to `init_server` with port 80:
`parse_port` returns 80 and the trace of `main` opens with the `socket` call
and binds port 80. -/
theorem C1_leading_blank_is_accepted :
    isBase10Integer [' ', '8', '0'] = false
    ∧ specPort [' ', '8', '0'] = none
    ∧ parse_port Libc.sample [' ', '8', '0'] = (80, [])
    ∧ Tcp.main Libc.sample [['t'], [' ', '8', '0']] Tcp.env_ok 0
        = MainResult.running [Event.socket 10 1 0 3, Event.setsockopt 3 1 2 [1] 4 0,
            Event.setsockopt 3 41 26 [0] 4 0,
            Event.bind 3 ⟨10, htons 80, in6addr_any⟩ 28 0, Event.listen 3 2 0]
    ∧ Udp.main Libc.sample [['u'], [' ', '8', '0']] Udp.env_ok 0
        = MainResult.running [Event.socket 10 2 0 3, Event.setsockopt 3 41 49 [1] 4 0,
            Event.setsockopt 3 41 26 [0] 4 0,
            Event.bind 3 ⟨10, htons 80, in6addr_any⟩ 28 0] := by
  refine ⟨by decide, by decide, by decide, by decide, by decide⟩

/-- C1, amended. For every port argument `s` (a C string), in both servers:
`main` goes on to `init_server` if and only if `s`, after the white space
`strtol` skips at its front, is a base-10 integer (optional sign, one or
more digits) with no trailing characters and a value in 1..65535, and the
port passed to `init_server` is then that value; for every other string
`main` exits with code 1 after a single diagnostic on standard error, with
no system call made, so without creating a socket. -/
theorem C1_port_argument (libc : Libc) (prog s : List Char) (hs : NUL ∉ s) :
    (∀ p, specPort (s.dropWhile isspace) = some p →
        1 ≤ p ∧ p ≤ 65535
        ∧ (∀ (env : Tcp.Env) (n : Nat),
            Tcp.main libc [prog, s] env n = Tcp.main_serve libc p env n)
        ∧ (∀ (env : Udp.Env) (n : Nat),
            Udp.main libc [prog, s] env n = Udp.main_serve libc p env n))
    ∧ (specPort (s.dropWhile isspace) = none →
        ∃ msg, (∀ (env : Tcp.Env) (n : Nat),
            Tcp.main libc [prog, s] env n = MainResult.exited 1 [Event.stderr msg])
          ∧ (∀ (env : Udp.Env) (n : Nat),
            Udp.main libc [prog, s] env n = MainResult.exited 1 [Event.stderr msg])) := by
  obtain ⟨hsome, hnone⟩ := parse_port_spec libc s hs
  constructor
  · intro p hp
    obtain ⟨h1, h2, h3⟩ := hsome p hp
    exact ⟨h2, h3, tcp_main_valid libc prog s p h1 h2, udp_main_valid libc prog s p h1 h2⟩
  · intro hn
    exact main_invalid libc prog s (hnone hn)

/-- Witness of C1 amended: the argument `8080`. -/
theorem C1_port_argument_witness :
    NUL ∉ ['8', '0', '8', '0']
    ∧ specPort (['8', '0', '8', '0'].dropWhile isspace) = some 8080
    ∧ Tcp.main Libc.sample [['t'], ['8', '0', '8', '0']] Tcp.env_ok 1
        = Tcp.main_serve Libc.sample 8080 Tcp.env_ok 1 :=
  ⟨by decide, by decide,
    ((C1_port_argument Libc.sample ['t'] ['8', '0', '8', '0'] (by decide)).1 8080
      (by decide)).2.2.1 Tcp.env_ok 1⟩

end NetExamples
